import Mathlib

/-!
Shallow embedding of the device claiming and pairing logic of
tronbyt_server (module tronbyt_server/device_claim.py).

The Supabase record store is modelled as an explicit state value
(lists of pairing-token records and device records); each Supabase
call in the Python code becomes one pure operation on that state.
Timestamps are modelled as integers (seconds); the random token string
and the current time are passed as explicit parameters, since they are
environment inputs of the Python functions.
-/

/-! ### Device-ID validator (device_claim.validate_device_id)

The Python code checks the length and then runs `int(device_id, 16)`
inside a try/except. We therefore embed the acceptance condition of the
CPython integer parser for base 16 on ASCII strings: optional
surrounding whitespace, an optional sign, an optional 0x/0X prefix, and
a nonempty digit run in which a single underscore may stand between two
digits or directly after the prefix. -/

def isHexChar (c : Char) : Bool :=
  (('0' ≤ c) && (c ≤ '9')) || (('a' ≤ c) && (c ≤ 'f')) || (('A' ≤ c) && (c ≤ 'F'))

def isPySpace (c : Char) : Bool :=
  c == ' ' || c == '\t' || c == '\n' || c == '\r' || c == '\x0b' || c == '\x0c'

/-- Continuation of a hex digit run: more digits, a single underscore
followed by a digit, or trailing whitespace to the end. -/
def hexRunAux : List Char → Bool
  | [] => true
  | '_' :: c :: cs => isHexChar c && hexRunAux cs
  | ['_'] => false
  | c :: cs => if isPySpace c then cs.all isPySpace else isHexChar c && hexRunAux cs

/-- A nonempty hex digit run (underscores only between digits),
optionally followed by trailing whitespace. -/
def hexRun : List Char → Bool
  | [] => false
  | c :: cs => isHexChar c && hexRunAux cs

/-- Digits after the optional base prefix: one underscore directly after
the prefix is accepted. -/
def pyHexDigits (afterPrefix : Bool) (cs : List Char) : Bool :=
  match afterPrefix, cs with
  | true, '_' :: rest => hexRun rest
  | _, rest => hexRun rest

/-- Optional 0x or 0X prefix, then the digits. -/
def pyHexPrefixed : List Char → Bool
  | '0' :: 'x' :: cs => pyHexDigits true cs
  | '0' :: 'X' :: cs => pyHexDigits true cs
  | cs => pyHexDigits false cs

/-- Optional sign. -/
def pySigned : List Char → Bool
  | '+' :: cs => pyHexPrefixed cs
  | '-' :: cs => pyHexPrefixed cs
  | cs => pyHexPrefixed cs

/-- Acceptance condition of the CPython call int(s, 16): leading
whitespace is skipped, then sign, prefix and digit run; trailing
whitespace is absorbed by the run acceptor. -/
def pyIntBase16Valid (s : String) : Bool :=
  pySigned (s.data.dropWhile isPySpace)

/-- device_claim.validate_device_id: rejects empty strings and strings
whose length is not 8, then tries int(device_id, 16). -/
def validate_device_id (device_id : String) : Bool :=
  if device_id.isEmpty || device_id.length != 8 then false
  else pyIntBase16Valid device_id

/-! ### Data model -/

/-- A row of the device_pairing_tokens table. -/
structure TokenRecord where
  device_id : String
  token : String
  expires_at : Int
  claimed_by : Option String
  claimed_at : Option Int
deriving Repr, DecidableEq

/-- A row of the devices table; api_key stands for the columns that the
claim flow never writes. -/
structure DeviceRecord where
  id : String
  user_id : String
  name : String
  api_key : Option String
deriving Repr, DecidableEq

/-- The record store: the two tables the claim flow touches. -/
structure Store where
  tokens : List TokenRecord
  devices : List DeviceRecord
deriving Repr, DecidableEq

/-- device_claim.ClaimResult. -/
structure ClaimResult where
  success : Bool
  device_id : Option String
  message : String
deriving Repr, DecidableEq

/-- device_claim.PairingToken. -/
structure PairingToken where
  device_id : String
  token : String
  expires_at : Int
deriving Repr, DecidableEq

/-! ### Store operations (one per Supabase call) -/

/-- table("device_pairing_tokens").select("*").eq("token", t).is_("claimed_by", "null"). -/
def selectUnclaimedToken (st : Store) (t : String) : List TokenRecord :=
  st.tokens.filter (fun r => r.token == t && r.claimed_by == none)

/-- table("devices").select("user_id").eq("id", i). -/
def selectDeviceById (st : Store) (i : String) : List DeviceRecord :=
  st.devices.filter (fun d => d.id == i)

/-- table("devices").upsert(device_data): PostgREST upsert keyed on id.
On conflict the payload columns (user_id, name) are updated and the
other columns kept; otherwise a fresh row is inserted with the
non-payload columns at their defaults. -/
def upsertDevice (st : Store) (i u n : String) : Store :=
  if st.devices.any (fun d => d.id == i) then
    { st with
      devices := st.devices.map (fun d =>
        if d.id == i then { d with user_id := u, name := n } else d) }
  else
    { st with devices := st.devices ++ [{ id := i, user_id := u, name := n, api_key := none }] }

/-- table("device_pairing_tokens").update({claimed_by, claimed_at}).eq("token", t).
Note that the update is conditioned on the token value only, not on
claimed_by still being null. -/
def markTokenClaimed (st : Store) (t u : String) (now : Int) : Store :=
  { st with
    tokens := st.tokens.map (fun r =>
      if r.token == t then { r with claimed_by := some u, claimed_at := some now } else r) }

/-- table("device_pairing_tokens").delete().eq("device_id", d). -/
def deleteTokensForDevice (st : Store) (d : String) : Store :=
  { st with tokens := st.tokens.filter (fun r => !(r.device_id == d)) }

/-! ### claim_device

The four store calls of claim_device are numbered 0 (token select),
1 (device select), 2 (device upsert), 3 (token update). The fault
parameter injects a store failure at one numbered call, modelling the
except-Exception handler of the Python code, which turns any such
failure into a ClaimResult whose message embeds the error text. -/

def faultAt (fault : Option (Nat × String)) (k : Nat) : Bool :=
  match fault with
  | some (j, _) => j == k
  | none => false

def faultMsg (fault : Option (Nat × String)) : String :=
  match fault with
  | some (_, e) => e
  | none => ""

/-- The write section of claim_device (device upsert, then marking the
token claimed), shared by the device-exists and device-missing paths. -/
def claimDeviceWrite (fault : Option (Nat × String)) (now : Int) (st : Store)
    (user_id pairing_token device_id : String) : ClaimResult × Store :=
  if faultAt fault 2 then
    (⟨false, none, "Failed to claim device: " ++ faultMsg fault⟩, st)
  else if faultAt fault 3 then
    (⟨false, none, "Failed to claim device: " ++ faultMsg fault⟩,
      upsertDevice st device_id user_id ("Tronbyt-" ++ device_id.take 4))
  else
    (⟨true, some device_id, "Device claimed successfully"⟩,
      markTokenClaimed
        (upsertDevice st device_id user_id ("Tronbyt-" ++ device_id.take 4))
        pairing_token user_id now)

/-- claim_device after the token lookup has returned looked: expiry
check, ownership check, then the write section. Splitting here lets an
interleaved execution reuse a lookup taken on an earlier store state. -/
def claimDeviceFromAux (fault : Option (Nat × String)) (now : Int)
    (looked : List TokenRecord) (st : Store) (user_id pairing_token : String) :
    ClaimResult × Store :=
  match looked with
  | [] => (⟨false, none, "Invalid or expired pairing token"⟩, st)
  | token_data :: _ =>
    if now > token_data.expires_at then
      (⟨false, none, "Pairing token has expired"⟩, st)
    else if faultAt fault 1 then
      (⟨false, none, "Failed to claim device: " ++ faultMsg fault⟩, st)
    else
      match selectDeviceById st token_data.device_id with
      | existing :: _ =>
        if existing.user_id ≠ user_id then
          (⟨false, none, "Device is already claimed by another user"⟩, st)
        else
          claimDeviceWrite fault now st user_id pairing_token token_data.device_id
      | [] => claimDeviceWrite fault now st user_id pairing_token token_data.device_id

/-- claim_device with the fault parameter. -/
def claimDeviceAux (fault : Option (Nat × String)) (now : Int) (st : Store)
    (user_id pairing_token : String) : ClaimResult × Store :=
  if faultAt fault 0 then
    (⟨false, none, "Failed to claim device: " ++ faultMsg fault⟩, st)
  else
    claimDeviceFromAux fault now (selectUnclaimedToken st pairing_token) st user_id pairing_token

/-- device_claim.claim_device on a store that does not fail. -/
def claimDevice (now : Int) (st : Store) (user_id pairing_token : String) :
    ClaimResult × Store :=
  claimDeviceAux none now st user_id pairing_token

/-- The continuation of claim_device after its token lookup, fault-free. -/
def claimDeviceFrom (now : Int) (looked : List TokenRecord) (st : Store)
    (user_id pairing_token : String) : ClaimResult × Store :=
  claimDeviceFromAux none now looked st user_id pairing_token

/-! ### generate_pairing_token -/

def PAIRING_TOKEN_VALIDITY_MINUTES : Int := 30

/-- device_claim.generate_pairing_token; the HTTPException on a bad
device id is modelled as the error case. The random token string and
the current time are parameters. -/
def generatePairingToken (now : Int) (st : Store) (device_id token : String) :
    Except String (PairingToken × Store) :=
  if !(validate_device_id device_id) then
    Except.error "Invalid device ID format. Must be 8 hex characters."
  else
    let expires_at := now + PAIRING_TOKEN_VALIDITY_MINUTES * 60
    let st1 := deleteTokensForDevice st device_id
    let st2 := { st1 with
      tokens := st1.tokens ++ [⟨device_id, token, expires_at, none, none⟩] }
    Except.ok (⟨device_id, token, expires_at⟩, st2)

/-! ### Interleavings and concrete states used by the theorems -/

/-- Two claim_device calls racing on the same token where both token
lookups execute against the initial store before either call writes;
the first caller then runs to completion, then the second, using its
stale lookup. Every store call stays atomic, so this is a legal
schedule of two concurrent requests. -/
def twoClaimsLookupsFirst (now : Int) (st : Store) (u1 u2 t : String) :
    ClaimResult × ClaimResult × Store :=
  let looked1 := selectUnclaimedToken st t
  let looked2 := selectUnclaimedToken st t
  let r1 := claimDeviceFrom now looked1 st u1 t
  let r2 := claimDeviceFrom now looked2 r1.2 u2 t
  (r1.1, r2.1, r2.2)

/-- Owner of the device row the claim flow reads for id i (the first
matching row, as the Python code reads data[0]). -/
def deviceOwner (st : Store) (i : String) : Option String :=
  (selectDeviceById st i).head?.map DeviceRecord.user_id

/-- A store with one unclaimed token (expiring at 100) for device
a1b2c3d4, which is already owned by u1 under a custom name. -/
def stW : Store :=
  { tokens := [⟨"a1b2c3d4", "tokA", 100, none, none⟩],
    devices := [⟨"a1b2c3d4", "u1", "Kitchen", some "k1"⟩] }

/-- A store with one unclaimed token for a device that has no row yet. -/
def stR : Store :=
  { tokens := [⟨"a1b2c3d4", "tokA", 100, none, none⟩], devices := [] }

/-- A store whose only token row for tokA is already claimed. -/
def stC : Store :=
  { tokens := [⟨"a1b2c3d4", "tokA", 100, some "u1", some 10⟩], devices := [] }

/-! ### Helper lemmas -/

theorem markTokenClaimed_devices (st : Store) (t u : String) (now : Int) :
    (markTokenClaimed st t u now).devices = st.devices := rfl

theorem upsertDevice_tokens (st : Store) (i u n : String) :
    (upsertDevice st i u n).tokens = st.tokens := by
  unfold upsertDevice; split <;> rfl

theorem claimDevice_eq_from (now : Int) (st : Store) (u t : String) :
    claimDevice now st u t = claimDeviceFrom now (selectUnclaimedToken st t) st u t := rfl

theorem claimDeviceWrite_none_state (now : Int) (st : Store) (u t did : String) :
    (claimDeviceWrite none now st u t did).2
      = markTokenClaimed (upsertDevice st did u ("Tronbyt-" ++ did.take 4)) t u now := rfl

theorem filter_map_pres (l : List DeviceRecord) (f : DeviceRecord → DeviceRecord)
    (hf : ∀ d, (f d).id = d.id) (j : String) :
    (l.map f).filter (fun d => d.id == j) = (l.filter (fun d => d.id == j)).map f := by
  induction l with
  | nil => rfl
  | cons d l ih =>
    simp only [List.map_cons, List.filter_cons, hf d]
    by_cases hdj : d.id = j
    · simp [hdj, ih]
    · simp [hdj, ih]

theorem select_ne_nil_any (st : Store) (i : String) (h : selectDeviceById st i ≠ []) :
    st.devices.any (fun d => d.id == i) = true := by
  rcases hne : selectDeviceById st i with _ | ⟨d, rest⟩
  · exact absurd hne h
  · have hd : d ∈ selectDeviceById st i := by rw [hne]; exact List.mem_cons_self d rest
    have := List.mem_filter.mp hd
    exact List.any_eq_true.mpr ⟨d, this.1, this.2⟩

theorem select_nil_any (st : Store) (i : String) (h : selectDeviceById st i = []) :
    st.devices.any (fun d => d.id == i) = false := by
  rw [List.any_eq_false]
  intro d hd
  have : ∀ a ∈ st.devices, ¬((fun d => d.id == i) a = true) := by
    intro a ha
    have := List.filter_eq_nil_iff.mp h a ha
    simpa using this
  simpa using this d hd

theorem deviceOwner_upsert (st : Store) (i u n j a : String)
    (h : deviceOwner st j = some a)
    (hcond : selectDeviceById st i = [] ∨ deviceOwner st i = some u) :
    deviceOwner (upsertDevice st i u n) j = some a := by
  by_cases hji : j = i
  · subst hji
    rcases hcond with hnil | hu
    · rw [deviceOwner, hnil] at h
      simp at h
    · rw [h] at hu
      have hau : a = u := by simpa using hu
      subst hau
      rcases hne : selectDeviceById st j with _ | ⟨d0, rest⟩
      · rw [deviceOwner, hne] at h; simp at h
      · have hany := select_ne_nil_any st j (by rw [hne]; simp)
        have hd0 : d0 ∈ selectDeviceById st j := by rw [hne]; exact List.mem_cons_self d0 rest
        have hd0id : (d0.id == j) = true := (List.mem_filter.mp hd0).2
        unfold upsertDevice
        rw [hany, if_pos rfl]
        unfold deviceOwner selectDeviceById at *
        rw [filter_map_pres _ _ (by intro d; split <;> rfl) j]
        rw [hne]
        simp only [List.map_cons, List.head?_cons, Option.map_some]
        rw [if_pos hd0id]
        rfl
  · rcases hcond with hnil | hu
    · have hany := select_nil_any st i hnil
      unfold upsertDevice
      rw [hany]
      simp only [Bool.false_eq_true, if_false]
      unfold deviceOwner selectDeviceById at *
      rw [List.filter_append]
      have : List.filter (fun d => d.id == j) [({ id := i, user_id := u, name := n, api_key := none } : DeviceRecord)] = [] := by
        simp [Ne.symm hji]
      rw [this, List.append_nil]
      exact h
    · have hne : selectDeviceById st i ≠ [] := by
        intro hx
        rw [deviceOwner, hx] at hu
        simp at hu
      have hany := select_ne_nil_any st i hne
      unfold upsertDevice
      rw [hany, if_pos rfl]
      unfold deviceOwner selectDeviceById at *
      rw [filter_map_pres _ _ (by intro d; split <;> rfl) j]
      rcases hsel : List.filter (fun d => d.id == j) st.devices with _ | ⟨d0, rest⟩
      · rw [hsel] at h; simp at h
      · rw [hsel] at h
        have hd0 : d0 ∈ List.filter (fun d => d.id == j) st.devices := by
          rw [hsel]; exact List.mem_cons_self d0 rest
        have hd0j : (d0.id == j) = true := (List.mem_filter.mp hd0).2
        have hd0i : (d0.id == i) = false := by
          have : d0.id = j := by simpa using hd0j
          simp [this, hji]
        rw [hsel]
        simp only [List.map_cons, List.head?_cons, Option.map_some]
        rw [if_neg (by simp [hd0i])]
        rw [List.head?_cons] at h
        exact h

theorem deviceOwner_markTokenClaimed (st : Store) (t u : String) (now : Int) (i : String) :
    deviceOwner (markTokenClaimed st t u now) i = deviceOwner st i := rfl

theorem selectUnclaimedToken_eq_nil (st : Store) (t : String)
    (h : ∀ r ∈ st.tokens, r.token ≠ t ∨ r.claimed_by ≠ none) :
    selectUnclaimedToken st t = [] := by
  apply List.filter_eq_nil_iff.mpr
  intro r hr
  rcases h r hr with h1 | h1
  · simp [h1]
  · cases hc : r.claimed_by with
    | none => exact absurd hc h1
    | some v => simp [hc]

theorem claimDevice_no_token (now : Int) (st : Store) (u t : String)
    (h : selectUnclaimedToken st t = []) :
    claimDevice now st u t = (⟨false, none, "Invalid or expired pairing token"⟩, st) := by
  rw [claimDevice_eq_from, h]; rfl

theorem claimDevice_preserves_owner (now : Int) (st : Store) (u t i a : String)
    (h : deviceOwner st i = some a) :
    deviceOwner (claimDevice now st u t).2 i = some a := by
  rw [claimDevice_eq_from]
  rcases hsel : selectUnclaimedToken st t with _ | ⟨rec, rest⟩
  · simpa [claimDeviceFrom, claimDeviceFromAux] using h
  · simp only [claimDeviceFrom, claimDeviceFromAux]
    split
    · exact h
    · have hf1 : faultAt none 1 = false := rfl
      rw [hf1]
      simp only [Bool.false_eq_true, if_false]
      rcases hdev : selectDeviceById st rec.device_id with _ | ⟨dev, drest⟩
      · simp only [claimDeviceWrite]
        have hf2 : faultAt none 2 = false := rfl
        have hf3 : faultAt none 3 = false := rfl
        rw [hf2, hf3]
        simp only [Bool.false_eq_true, if_false]
        rw [deviceOwner_markTokenClaimed]
        exact deviceOwner_upsert st rec.device_id u _ i a h (Or.inl hdev)
      · split
        · rename_i existing tail heq
          injection heq with h1 h2
          subst h1
          split
          · exact h
          · rename_i hsame
            simp only [claimDeviceWrite]
            have hf2 : faultAt none 2 = false := rfl
            have hf3 : faultAt none 3 = false := rfl
            rw [hf2, hf3]
            simp only [Bool.false_eq_true, if_false]
            rw [deviceOwner_markTokenClaimed]
            refine deviceOwner_upsert st rec.device_id u _ i a h (Or.inr ?_)
            have hu : dev.user_id = u := not_not.mp hsame
            rw [deviceOwner, hdev, List.head?_cons, Option.map_some', hu]
        · rename_i heq
          exact absurd heq (List.cons_ne_nil dev drest)

/-! ### Claim theorems -/

/-- C1: if device d is owned by user A and a different user B attempts a claim
with a pairing token for d that is otherwise valid (present, unclaimed,
unexpired), claim_device rejects with the ownership-conflict message and
leaves the store untouched; moreover no claim_device call ever changes the
owner recorded for an existing device. -/
theorem claim_exclusive_ownership
    (now : Int) (st : Store) (A B t : String) (rec : TokenRecord)
    (rest : List TokenRecord) (dev : DeviceRecord) (drest : List DeviceRecord)
    (hAB : A ≠ B)
    (hlook : selectUnclaimedToken st t = rec :: rest)
    (hexp : now ≤ rec.expires_at)
    (hdev : selectDeviceById st rec.device_id = dev :: drest)
    (hown : dev.user_id = A) :
    claimDevice now st B t
      = (⟨false, none, "Device is already claimed by another user"⟩, st)
    ∧ ∀ (now2 : Int) (st2 : Store) (u2 t2 i a : String),
        deviceOwner st2 i = some a →
        deviceOwner (claimDevice now2 st2 u2 t2).2 i = some a := by
  constructor
  · rw [claimDevice_eq_from, hlook]
    simp only [claimDeviceFrom, claimDeviceFromAux]
    rw [if_neg (not_lt.mpr hexp)]
    have hf1 : faultAt none 1 = false := rfl
    rw [hf1]
    simp only [Bool.false_eq_true, if_false]
    rw [hdev]
    split
    · rename_i existing tail heq
      injection heq with h1 h2
      subst h1
      rw [if_pos (by rw [hown]; exact hAB)]
    · rename_i heq
      exact absurd heq (List.cons_ne_nil dev drest)
  · intro now2 st2 u2 t2 i a h
    exact claimDevice_preserves_owner now2 st2 u2 t2 i a h

/-- Witness for C1 at a concrete input: u2 cannot take over the device that
stW records as owned by u1, even with a fresh valid token. -/
theorem claim_exclusive_ownership_witness :
    claimDevice 50 stW "u2" "tokA"
      = (⟨false, none, "Device is already claimed by another user"⟩, stW) :=
  (claim_exclusive_ownership 50 stW "u1" "u2" "tokA"
      ⟨"a1b2c3d4", "tokA", 100, none, none⟩ []
      ⟨"a1b2c3d4", "u1", "Kitchen", some "k1"⟩ []
      (by decide) (by decide) (by decide) (by decide) (by decide)).1

/-- C2: false on the code — validate_device_id accepts these 8-character
strings that are not pure hexadecimal, because int with base 16 also accepts
a sign, surrounding whitespace, a 0x prefix and digit-group underscores. -/
theorem validate_device_id_accepts_nonhex :
    validate_device_id "+1234567" = true ∧
    validate_device_id "-1234567" = true ∧
    validate_device_id "0x123456" = true ∧
    validate_device_id " 1234567" = true ∧
    validate_device_id "12_34567" = true ∧
    "+1234567".length = 8 ∧ "+1234567".data.all isHexChar = false := by
  decide

/-- C7: a claim with an unclaimed token whose expiry is strictly before now
is rejected with the expiry message and the store is left untouched. -/
theorem claim_expired_rejection (now : Int) (st : Store) (u t : String)
    (rec : TokenRecord) (rest : List TokenRecord)
    (hlook : selectUnclaimedToken st t = rec :: rest)
    (hexp : rec.expires_at < now) :
    claimDevice now st u t = (⟨false, none, "Pairing token has expired"⟩, st) := by
  rw [claimDevice_eq_from, hlook]
  simp only [claimDeviceFrom, claimDeviceFromAux]
  rw [if_pos hexp]

/-- Witness for C7 at a concrete input: at time 200 the token of stW
(expiring at 100) is rejected as expired and nothing is written. -/
theorem claim_expired_rejection_witness :
    claimDevice 200 stW "u1" "tokA" = (⟨false, none, "Pairing token has expired"⟩, stW) :=
  claim_expired_rejection 200 stW "u1" "tokA"
    ⟨"a1b2c3d4", "tokA", 100, none, none⟩ [] (by decide) (by decide)

/-- C8: a claim against a store that has no row for the token and a claim
against a store whose rows for that token are all claimed produce the same
rejection result, and neither store is touched, so the caller cannot tell
the two store states apart from the result. -/
theorem claim_invalid_indistinguishable (now : Int) (st1 st2 : Store) (u t : String)
    (h1 : ∀ r ∈ st1.tokens, r.token ≠ t)
    (h2 : ∀ r ∈ st2.tokens, r.token = t → r.claimed_by ≠ none)
    (hex : ∃ r ∈ st2.tokens, r.token = t ∧ r.claimed_by ≠ none) :
    (claimDevice now st1 u t).1 = (claimDevice now st2 u t).1 ∧
    claimDevice now st1 u t = (⟨false, none, "Invalid or expired pairing token"⟩, st1) ∧
    claimDevice now st2 u t = (⟨false, none, "Invalid or expired pairing token"⟩, st2) := by
  have e1 : claimDevice now st1 u t = (⟨false, none, "Invalid or expired pairing token"⟩, st1) :=
    claimDevice_no_token now st1 u t
      (selectUnclaimedToken_eq_nil st1 t (fun r hr => Or.inl (h1 r hr)))
  have e2 : claimDevice now st2 u t = (⟨false, none, "Invalid or expired pairing token"⟩, st2) := by
    apply claimDevice_no_token
    apply selectUnclaimedToken_eq_nil
    intro r hr
    by_cases hrt : r.token = t
    · exact Or.inr (h2 r hr hrt)
    · exact Or.inl hrt
  exact ⟨by rw [e1, e2], e1, e2⟩

/-- Witness for C8 at a concrete input: the empty store and stC (whose only
tokA row is already claimed) give the same rejection. -/
theorem claim_invalid_indistinguishable_witness :
    (claimDevice 50 { tokens := [], devices := [] } "u2" "tokA").1
      = (claimDevice 50 stC "u2" "tokA").1 :=
  (claim_invalid_indistinguishable 50 { tokens := [], devices := [] } stC "u2" "tokA"
      (by intro r hr; exact absurd hr (List.not_mem_nil r))
      (by decide) (by decide)).1

theorem claimDevice_cases (now : Int) (st : Store) (u t : String) :
    claimDevice now st u t = (⟨false, none, "Invalid or expired pairing token"⟩, st)
    ∨ claimDevice now st u t = (⟨false, none, "Pairing token has expired"⟩, st)
    ∨ claimDevice now st u t = (⟨false, none, "Device is already claimed by another user"⟩, st)
    ∨ ∃ did, claimDevice now st u t
        = (⟨true, some did, "Device claimed successfully"⟩,
           markTokenClaimed (upsertDevice st did u ("Tronbyt-" ++ did.take 4)) t u now) := by
  rw [claimDevice_eq_from]
  rcases hsel : selectUnclaimedToken st t with _ | ⟨rec, rest⟩
  · left; rfl
  · simp only [claimDeviceFrom, claimDeviceFromAux]
    split
    · right; left; rfl
    · have hf1 : faultAt none 1 = false := rfl
      rw [hf1]
      simp only [Bool.false_eq_true, if_false]
      split
      · rename_i existing tail heq
        split
        · right; right; left; rfl
        · right; right; right; exact ⟨rec.device_id, rfl⟩
      · right; right; right; exact ⟨rec.device_id, rfl⟩

/-- C3 counterexample: at stW the re-claim by the owner u1 with a fresh valid
token succeeds but renames the device from Kitchen back to the default, so
the device record is not unchanged. -/
theorem reclaim_not_idempotent_counterexample :
    (claimDevice 50 stW "u1" "tokA").1.success = true
    ∧ (claimDevice 50 stW "u1" "tokA").2.devices.head?.map DeviceRecord.name
        = some "Tronbyt-a1b2"
    ∧ stW.devices.head?.map DeviceRecord.name = some "Kitchen" := by
  decide

/-- C3 (amended): a re-claim by the owner succeeds and rewrites exactly the
upsert payload columns of the device row: user_id stays the owner and the
other columns (id, api_key) are untouched, but name is reset to the default
derived from the device id. -/
theorem reclaim_updates_only_payload_columns
    (now : Int) (st : Store) (u t : String) (rec : TokenRecord)
    (rest : List TokenRecord) (dev : DeviceRecord) (drest : List DeviceRecord)
    (hlook : selectUnclaimedToken st t = rec :: rest)
    (hexp : now ≤ rec.expires_at)
    (hdev : selectDeviceById st rec.device_id = dev :: drest)
    (hown : dev.user_id = u) :
    (claimDevice now st u t).1 = ⟨true, some rec.device_id, "Device claimed successfully"⟩
    ∧ (claimDevice now st u t).2.devices
        = st.devices.map (fun d =>
            if d.id == rec.device_id then
              { d with user_id := u, name := "Tronbyt-" ++ rec.device_id.take 4 }
            else d) := by
  have key : claimDevice now st u t
      = (⟨true, some rec.device_id, "Device claimed successfully"⟩,
         markTokenClaimed
           (upsertDevice st rec.device_id u ("Tronbyt-" ++ rec.device_id.take 4)) t u now) := by
    rw [claimDevice_eq_from, hlook]
    simp only [claimDeviceFrom, claimDeviceFromAux]
    rw [if_neg (not_lt.mpr hexp)]
    have hf1 : faultAt none 1 = false := rfl
    rw [hf1]
    simp only [Bool.false_eq_true, if_false]
    rw [hdev]
    split
    · rename_i existing tail heq
      injection heq with h1 h2
      subst h1
      rw [if_neg (by rw [hown]; exact fun hx => hx rfl)]
      rfl
    · rename_i heq
      exact absurd heq (List.cons_ne_nil dev drest)
  constructor
  · rw [key]
  · rw [key]
    show (upsertDevice st rec.device_id u ("Tronbyt-" ++ rec.device_id.take 4)).devices = _
    unfold upsertDevice
    rw [if_pos (select_ne_nil_any st rec.device_id (by rw [hdev]; simp))]

/-- Witness for the amended C3 at a concrete input. -/
theorem reclaim_updates_only_payload_columns_witness :
    (claimDevice 50 stW "u1" "tokA").1
      = ⟨true, some "a1b2c3d4", "Device claimed successfully"⟩ :=
  (reclaim_updates_only_payload_columns 50 stW "u1" "tokA"
      ⟨"a1b2c3d4", "tokA", 100, none, none⟩ []
      ⟨"a1b2c3d4", "u1", "Kitchen", some "k1"⟩ []
      (by decide) (by decide) (by decide) (by decide)).1

/-- C4: the business rejections of claim_device follow the fixed check order
(token lookup, then expiry, then ownership; the first failing check decides
the message) and every rejected claim leaves the store exactly as it was —
no device row and no token row is written before all checks pass. -/
theorem claim_rejection_atomicity (now : Int) (st : Store) (u t : String) :
    ((claimDevice now st u t).1.success = false → (claimDevice now st u t).2 = st)
    ∧ (selectUnclaimedToken st t = [] →
        (claimDevice now st u t).1.message = "Invalid or expired pairing token")
    ∧ (∀ rec rest, selectUnclaimedToken st t = rec :: rest → rec.expires_at < now →
        (claimDevice now st u t).1.message = "Pairing token has expired")
    ∧ (∀ rec rest dev drest, selectUnclaimedToken st t = rec :: rest →
        now ≤ rec.expires_at → selectDeviceById st rec.device_id = dev :: drest →
        dev.user_id ≠ u →
        (claimDevice now st u t).1.message = "Device is already claimed by another user") := by
  refine ⟨?_, ?_, ?_, ?_⟩
  · intro hfail
    rcases claimDevice_cases now st u t with hc | hc | hc | ⟨did, hc⟩
    · rw [hc]
    · rw [hc]
    · rw [hc]
    · rw [hc] at hfail
      simp at hfail
  · intro h
    rw [claimDevice_no_token now st u t h]
  · intro rec rest hsel hexp
    rw [claimDevice_eq_from, hsel]
    simp only [claimDeviceFrom, claimDeviceFromAux]
    rw [if_pos hexp]
  · intro rec rest dev drest hsel hexp hdev hne
    rw [claimDevice_eq_from, hsel]
    simp only [claimDeviceFrom, claimDeviceFromAux]
    rw [if_neg (not_lt.mpr hexp)]
    have hf1 : faultAt none 1 = false := rfl
    rw [hf1]
    simp only [Bool.false_eq_true, if_false]
    rw [hdev]
    split
    · rename_i existing tail heq
      injection heq with h1 h2
      subst h1
      rw [if_pos hne]
    · rename_i heq
      exact absurd heq (List.cons_ne_nil dev drest)

/-- Witness for C4 at a concrete input: the expired rejection happens with
the expiry message and the store of stW is untouched. -/
theorem claim_rejection_atomicity_witness :
    (claimDevice 200 stW "u1" "tokA").1.message = "Pairing token has expired" :=
  (claim_rejection_atomicity 200 stW "u1" "tokA").2.2.1
    ⟨"a1b2c3d4", "tokA", 100, none, none⟩ [] (by decide) (by decide)

theorem selectDeviceById_upsert_head (st : Store) (i u n : String) :
    ∃ k, (selectDeviceById (upsertDevice st i u n) i).head?
      = some ⟨i, u, n, k⟩ := by
  by_cases hany : st.devices.any (fun d => d.id == i) = true
  · unfold upsertDevice
    rw [if_pos hany]
    unfold selectDeviceById
    rw [filter_map_pres _ _ (by intro d; split <;> rfl) i]
    obtain ⟨d1, hd1, hp1⟩ := List.any_eq_true.mp hany
    rcases hf : st.devices.filter (fun d => d.id == i) with _ | ⟨d0, r0⟩
    · exact absurd hp1 (by simpa using List.filter_eq_nil_iff.mp hf d1 hd1)
    · have hd0 : d0 ∈ st.devices.filter (fun d => d.id == i) := by
        rw [hf]; exact List.mem_cons_self d0 r0
      have hd0i : d0.id = i := by simpa using (List.mem_filter.mp hd0).2
      refine ⟨d0.api_key, ?_⟩
      rw [hf]
      simp only [List.map_cons, List.head?_cons]
      rw [if_pos (by simp [hd0i])]
      rw [hd0i]
  · unfold upsertDevice
    rw [if_neg hany]
    unfold selectDeviceById
    rw [List.filter_append]
    have hall : ∀ d ∈ st.devices, ¬ d.id = i := by simpa using hany
    have hnil : st.devices.filter (fun d => d.id == i) = [] := by
      apply List.filter_eq_nil_iff.mpr
      intro d hd
      simp [hall d hd]
    rw [hnil]
    exact ⟨none, by simp⟩

theorem claimDevice_success_state (now : Int) (st : Store) (u t : String)
    (rec : TokenRecord) (rest : List TokenRecord)
    (hlook : selectUnclaimedToken st t = rec :: rest)
    (hexp : now ≤ rec.expires_at)
    (hok : selectDeviceById st rec.device_id = []
        ∨ ∃ dev drest, selectDeviceById st rec.device_id = dev :: drest ∧ dev.user_id = u) :
    claimDevice now st u t
      = (⟨true, some rec.device_id, "Device claimed successfully"⟩,
         markTokenClaimed
           (upsertDevice st rec.device_id u ("Tronbyt-" ++ rec.device_id.take 4)) t u now) := by
  rw [claimDevice_eq_from, hlook]
  simp only [claimDeviceFrom, claimDeviceFromAux]
  rw [if_neg (not_lt.mpr hexp)]
  have hf1 : faultAt none 1 = false := rfl
  rw [hf1]
  simp only [Bool.false_eq_true, if_false]
  rcases hok with hnil | ⟨dev, drest, hdev, hu⟩
  · rw [hnil]
    split
    · rename_i existing tail heq
      exact absurd heq.symm (List.cons_ne_nil existing tail)
    · rfl
  · rw [hdev]
    split
    · rename_i existing tail heq
      injection heq with h1 h2
      subst h1
      rw [if_neg (by rw [hu]; exact fun hx => hx rfl)]
      rfl
    · rename_i heq
      exact absurd heq (List.cons_ne_nil dev drest)

/-- C6: when the token is found unclaimed and unexpired and the device row is
absent or owned by the caller, claim_device reports success with the device
id and success message, the device row read back for that id carries the
caller as user_id and the default name built from the first 4 characters of
the device id, and every token row with this token value is marked claimed
by the caller at the current time. -/
theorem claim_success_postcondition (now : Int) (st : Store) (u t : String)
    (rec : TokenRecord) (rest : List TokenRecord)
    (hlook : selectUnclaimedToken st t = rec :: rest)
    (hexp : now ≤ rec.expires_at)
    (hok : selectDeviceById st rec.device_id = []
        ∨ ∃ dev drest, selectDeviceById st rec.device_id = dev :: drest ∧ dev.user_id = u) :
    (claimDevice now st u t).1
      = ⟨true, some rec.device_id, "Device claimed successfully"⟩
    ∧ (∃ k, (selectDeviceById (claimDevice now st u t).2 rec.device_id).head?
          = some ⟨rec.device_id, u, "Tronbyt-" ++ rec.device_id.take 4, k⟩)
    ∧ ∀ r ∈ (claimDevice now st u t).2.tokens, r.token = t →
        r.claimed_by = some u ∧ r.claimed_at = some now := by
  have key := claimDevice_success_state now st u t rec rest hlook hexp hok
  refine ⟨by rw [key], ?_, ?_⟩
  · rw [key]
    exact selectDeviceById_upsert_head st rec.device_id u _
  · rw [key]
    intro r hr ht
    simp only [markTokenClaimed, upsertDevice_tokens] at hr
    rcases List.mem_map.mp hr with ⟨r0, hr0, hre⟩
    subst hre
    by_cases h0 : r0.token = t
    · simp [h0]
    · have hkeep : (if (r0.token == t) = true then
          ({ r0 with claimed_by := some u, claimed_at := some now } : TokenRecord)
          else r0).token = r0.token := by
        split <;> rfl
      rw [hkeep] at ht
      exact absurd ht h0

/-- Witness for C6 at a concrete input: claiming the fresh device of stR
succeeds with the success message and device id. -/
theorem claim_success_postcondition_witness :
    (claimDevice 50 stR "u3" "tokA").1
      = ⟨true, some "a1b2c3d4", "Device claimed successfully"⟩ :=
  (claim_success_postcondition 50 stR "u3" "tokA"
      ⟨"a1b2c3d4", "tokA", 100, none, none⟩ []
      (by decide) (by decide) (Or.inl (by decide))).1

/-- C5: after a successful generate_pairing_token the store holds exactly one
token row for the device (the freshly inserted one, expiring 30 minutes
later), and a claim with any token string that previously belonged only to
this device and differs from the new token is rejected with the generic
invalid/expired message, leaving the store untouched. -/
theorem generate_single_outstanding_token
    (now : Int) (st : Store) (d tNew : String) (pt : PairingToken) (st2 : Store)
    (hok : generatePairingToken now st d tNew = Except.ok (pt, st2)) :
    st2.tokens.filter (fun r => r.device_id == d)
      = [⟨d, tNew, now + PAIRING_TOKEN_VALIDITY_MINUTES * 60, none, none⟩]
    ∧ ∀ told, (∀ r ∈ st.tokens, r.token = told → r.device_id = d) → told ≠ tNew →
        ∀ (now2 : Int) (u : String),
          claimDevice now2 st2 u told
            = (⟨false, none, "Invalid or expired pairing token"⟩, st2) := by
  have hst2 : st2.tokens
      = st.tokens.filter (fun r => !(r.device_id == d))
        ++ [⟨d, tNew, now + PAIRING_TOKEN_VALIDITY_MINUTES * 60, none, none⟩] := by
    unfold generatePairingToken at hok
    split at hok
    · simp at hok
    · injection hok with h
      injection h with h1 h2
      rw [← h2]
      rfl
  constructor
  · rw [hst2, List.filter_append]
    have h1 : (st.tokens.filter (fun r => !(r.device_id == d))).filter
        (fun r => r.device_id == d) = [] := by
      apply List.filter_eq_nil_iff.mpr
      intro r hr
      have := (List.mem_filter.mp hr).2
      simp at this
      simp [this]
    rw [h1]
    simp
  · intro told hU hne now2 u2
    apply claimDevice_no_token
    apply selectUnclaimedToken_eq_nil
    intro r hr
    rw [hst2] at hr
    rcases List.mem_append.mp hr with hl | hrx
    · left
      intro htok
      have hd2 := hU r (List.mem_filter.mp hl).1 htok
      have hkeep := (List.mem_filter.mp hl).2
      rw [hd2] at hkeep
      simp at hkeep
    · left
      have hr2 : r = ⟨d, tNew, now + PAIRING_TOKEN_VALIDITY_MINUTES * 60, none, none⟩ :=
        List.mem_singleton.mp hrx
      rw [hr2]
      exact Ne.symm hne

/-- Witness for C5 at a concrete input: after issuing tokB for the device of
stW, the store has one token row for it and the old token tokA is rejected. -/
theorem generate_single_outstanding_token_witness :
    ({ tokens := [⟨"a1b2c3d4", "tokB", 1800, none, none⟩],
       devices := [⟨"a1b2c3d4", "u1", "Kitchen", some "k1"⟩] } : Store).tokens.filter
        (fun r => r.device_id == "a1b2c3d4")
      = [⟨"a1b2c3d4", "tokB", 0 + PAIRING_TOKEN_VALIDITY_MINUTES * 60, none, none⟩]
    ∧ claimDevice 10
        { tokens := [⟨"a1b2c3d4", "tokB", 1800, none, none⟩],
          devices := [⟨"a1b2c3d4", "u1", "Kitchen", some "k1"⟩] } "u2" "tokA"
      = (⟨false, none, "Invalid or expired pairing token"⟩,
         { tokens := [⟨"a1b2c3d4", "tokB", 1800, none, none⟩],
           devices := [⟨"a1b2c3d4", "u1", "Kitchen", some "k1"⟩] }) :=
  have h := generate_single_outstanding_token 0 stW "a1b2c3d4" "tokB"
    ⟨"a1b2c3d4", "tokB", 1800⟩
    { tokens := [⟨"a1b2c3d4", "tokB", 1800, none, none⟩],
      devices := [⟨"a1b2c3d4", "u1", "Kitchen", some "k1"⟩] }
    rfl
  ⟨h.1, h.2 "tokA" (by decide) (by decide) 10 "u2"⟩

theorem faultAt_some (fault : Option (Nat × String)) (k : Nat)
    (h : faultAt fault k = true) :
    ∃ j e, fault = some (j, e) ∧ faultMsg fault = e := by
  cases fault with
  | none => simp [faultAt] at h
  | some p =>
    rcases p with ⟨j, e⟩
    exact ⟨j, e, rfl, rfl⟩

/-- C9: claim_device never surfaces a store failure as an exception. Every
run, with or without an injected store failure, returns a ClaimResult whose
message is the success message, one of the three business rejection
messages, or the generic failure message embedding the error text; and
whenever the run actually reaches a failing store call — the token select
(always executed), the device select (reached when the token is found and
unexpired), the device upsert or the token update (reached when in
addition the device is absent or owned by the caller) — the returned value
is exactly success=false with the message "Failed to claim device: "
followed by the error text of that call, keeping only the writes already
performed (none, except the upsert when the token update fails). -/
theorem claim_failure_as_value (fault : Option (Nat × String)) (now : Int)
    (st : Store) (u t : String) :
    (((claimDeviceAux fault now st u t).1.success = true
        ∧ (claimDeviceAux fault now st u t).1.message = "Device claimed successfully")
      ∨ ((claimDeviceAux fault now st u t).1.success = false
        ∧ ((claimDeviceAux fault now st u t).1.message = "Invalid or expired pairing token"
          ∨ (claimDeviceAux fault now st u t).1.message = "Pairing token has expired"
          ∨ (claimDeviceAux fault now st u t).1.message
              = "Device is already claimed by another user"
          ∨ ∃ k e, fault = some (k, e)
              ∧ (claimDeviceAux fault now st u t).1.message
                  = "Failed to claim device: " ++ e)))
    ∧ (∀ e, fault = some (0, e) →
        claimDeviceAux fault now st u t
          = (⟨false, none, "Failed to claim device: " ++ e⟩, st))
    ∧ (∀ e rec rest, fault = some (1, e) →
        selectUnclaimedToken st t = rec :: rest → now ≤ rec.expires_at →
        claimDeviceAux fault now st u t
          = (⟨false, none, "Failed to claim device: " ++ e⟩, st))
    ∧ (∀ e rec rest, fault = some (2, e) →
        selectUnclaimedToken st t = rec :: rest → now ≤ rec.expires_at →
        (selectDeviceById st rec.device_id = []
          ∨ ∃ dev drest, selectDeviceById st rec.device_id = dev :: drest
              ∧ dev.user_id = u) →
        claimDeviceAux fault now st u t
          = (⟨false, none, "Failed to claim device: " ++ e⟩, st))
    ∧ (∀ e rec rest, fault = some (3, e) →
        selectUnclaimedToken st t = rec :: rest → now ≤ rec.expires_at →
        (selectDeviceById st rec.device_id = []
          ∨ ∃ dev drest, selectDeviceById st rec.device_id = dev :: drest
              ∧ dev.user_id = u) →
        claimDeviceAux fault now st u t
          = (⟨false, none, "Failed to claim device: " ++ e⟩,
             upsertDevice st rec.device_id u ("Tronbyt-" ++ rec.device_id.take 4))) := by
  refine ⟨?_, ?_, ?_, ?_, ?_⟩
  · unfold claimDeviceAux claimDeviceFromAux claimDeviceWrite
    split
    · rename_i h0
      obtain ⟨j, e, hf, hm⟩ := faultAt_some fault 0 h0
      exact Or.inr ⟨rfl, Or.inr (Or.inr (Or.inr ⟨j, e, hf, by rw [hm]⟩))⟩
    · split
      · exact Or.inr ⟨rfl, Or.inl rfl⟩
      · split
        · exact Or.inr ⟨rfl, Or.inr (Or.inl rfl)⟩
        · split
          · rename_i h1
            obtain ⟨j, e, hf, hm⟩ := faultAt_some fault 1 h1
            exact Or.inr ⟨rfl, Or.inr (Or.inr (Or.inr ⟨j, e, hf, by rw [hm]⟩))⟩
          · split
            · split
              · exact Or.inr ⟨rfl, Or.inr (Or.inr (Or.inl rfl))⟩
              · split
                · rename_i h2
                  obtain ⟨j, e, hf, hm⟩ := faultAt_some fault 2 h2
                  exact Or.inr ⟨rfl, Or.inr (Or.inr (Or.inr ⟨j, e, hf, by rw [hm]⟩))⟩
                · split
                  · rename_i h3
                    obtain ⟨j, e, hf, hm⟩ := faultAt_some fault 3 h3
                    exact Or.inr ⟨rfl, Or.inr (Or.inr (Or.inr ⟨j, e, hf, by rw [hm]⟩))⟩
                  · exact Or.inl ⟨rfl, rfl⟩
            · split
              · rename_i h2
                obtain ⟨j, e, hf, hm⟩ := faultAt_some fault 2 h2
                exact Or.inr ⟨rfl, Or.inr (Or.inr (Or.inr ⟨j, e, hf, by rw [hm]⟩))⟩
              · split
                · rename_i h3
                  obtain ⟨j, e, hf, hm⟩ := faultAt_some fault 3 h3
                  exact Or.inr ⟨rfl, Or.inr (Or.inr (Or.inr ⟨j, e, hf, by rw [hm]⟩))⟩
                · exact Or.inl ⟨rfl, rfl⟩
  · intro e hf
    subst hf
    rfl
  · intro e rec rest hf hlook hexp
    subst hf
    unfold claimDeviceAux
    have hf0 : faultAt (some (1, e)) 0 = false := rfl
    rw [hf0]
    simp only [Bool.false_eq_true, if_false]
    rw [hlook]
    simp only [claimDeviceFromAux]
    rw [if_neg (not_lt.mpr hexp)]
    rfl
  · intro e rec rest hf hlook hexp hok
    subst hf
    unfold claimDeviceAux
    have hf0 : faultAt (some (2, e)) 0 = false := rfl
    rw [hf0]
    simp only [Bool.false_eq_true, if_false]
    rw [hlook]
    simp only [claimDeviceFromAux]
    rw [if_neg (not_lt.mpr hexp)]
    have hf1 : faultAt (some (2, e)) 1 = false := rfl
    rw [hf1]
    simp only [Bool.false_eq_true, if_false]
    rcases hok with hnil | ⟨dev, drest, hdev, hu⟩
    · rw [hnil]
      split
      · rename_i existing tail heq
        exact absurd heq.symm (List.cons_ne_nil existing tail)
      · rfl
    · rw [hdev]
      split
      · rename_i existing tail heq
        injection heq with h1 h2
        subst h1
        rw [if_neg (by rw [hu]; exact fun hx => hx rfl)]
        rfl
      · rename_i heq
        exact absurd heq (List.cons_ne_nil dev drest)
  · intro e rec rest hf hlook hexp hok
    subst hf
    unfold claimDeviceAux
    have hf0 : faultAt (some (3, e)) 0 = false := rfl
    rw [hf0]
    simp only [Bool.false_eq_true, if_false]
    rw [hlook]
    simp only [claimDeviceFromAux]
    rw [if_neg (not_lt.mpr hexp)]
    have hf1 : faultAt (some (3, e)) 1 = false := rfl
    rw [hf1]
    simp only [Bool.false_eq_true, if_false]
    rcases hok with hnil | ⟨dev, drest, hdev, hu⟩
    · rw [hnil]
      split
      · rename_i existing tail heq
        exact absurd heq.symm (List.cons_ne_nil existing tail)
      · rfl
    · rw [hdev]
      split
      · rename_i existing tail heq
        injection heq with h1 h2
        subst h1
        rw [if_neg (by rw [hu]; exact fun hx => hx rfl)]
        rfl
      · rename_i heq
        exact absurd heq (List.cons_ne_nil dev drest)

/-- Witness for C9 at a concrete input: a store failure with text boom at the
token update (the deepest store call) is returned as a value with the
generic failure message and only the already-performed upsert kept. -/
theorem claim_failure_as_value_witness :
    claimDeviceAux (some (3, "boom")) 50 stR "u1" "tokA"
      = (⟨false, none, "Failed to claim device: " ++ "boom"⟩,
         upsertDevice stR "a1b2c3d4" "u1" ("Tronbyt-" ++ "a1b2c3d4".take 4)) :=
  (claim_failure_as_value (some (3, "boom")) 50 stR "u1" "tokA").2.2.2.2
    "boom" ⟨"a1b2c3d4", "tokA", 100, none, none⟩ [] rfl (by decide) (by decide)
    (Or.inl (by decide))

/-- C10: false on the code — two claims of the same valid token under the
legal schedule in which both token lookups run before either claim writes
both return success, because the final token update is keyed on the token
value alone and never re-checks that claimed_by is still null, so N
simultaneous attempts need not produce exactly one success. -/
theorem concurrent_claims_both_succeed :
    (twoClaimsLookupsFirst 50 stR "u1" "u1" "tokA").1.success = true
    ∧ (twoClaimsLookupsFirst 50 stR "u1" "u1" "tokA").2.1.success = true
    ∧ (twoClaimsLookupsFirst 50 stR "u1" "u1" "tokA").2.1.message
        = "Device claimed successfully" := by
  decide
